import Mathlib

/-!
Shallow embedding of the WeatherBot source (src/main.py): the per-user
settings store backed by the sqlite `users` table, the notification
scheduler's job table, restart-time reconciliation (`restore_jobs`), the
time-input handler (`handle_time_input`), the on-demand forecast handler
(`handle_instant_forecast`) and the daily delivery pipeline
(`send_daily_weather`).  External collaborators (weather API, narration
model, Telegram sends) are modelled as an oracle environment whose values
fix each call's outcome; user-visible effects are recorded as event traces.
-/

namespace WeatherBot

/-- One row of the sqlite `users` table (src/main.py, `init_db`): all four
data columns are nullable, keyed by `user_id`.  Coordinates are stored as
REAL; the claims only ever test them for presence and for equality with 0,
so they are embedded as `Option Rat`. -/
structure UserSettings where
  latitude : Option Rat
  longitude : Option Rat
  notification_time : Option String
  timezone : Option String
  deriving DecidableEq, Repr

/-- The `users` table: rows in rowid order.  `user_id` is the primary key,
so reachable tables have pairwise distinct keys. -/
abbrev DB := List (Nat × UserSettings)

/-- The empty dict returned by `get_user_settings` for an unseen user:
every `.get(...)` on it yields None. -/
def emptySettings : UserSettings := ⟨none, none, none, none⟩

/-- `get_user_settings` (src/main.py lines 80-93): SELECT the row for
`user_id`, or return the empty dict when absent. -/
def get_user_settings (db : DB) (uid : Nat) : UserSettings :=
  match db.find? (fun p => p.1 == uid) with
  | some p => p.2
  | none => emptySettings

/-- The effect of `INSERT OR REPLACE INTO users` keyed by the primary key:
sqlite deletes any conflicting row and inserts the new one. -/
def insertOrReplace (db : DB) (uid : Nat) (row : UserSettings) : DB :=
  db.filter (fun p => !(p.1 == uid)) ++ [(uid, row)]

/-- `save_user_settings` (src/main.py lines 60-78): read the current row,
take each argument when it is not None and the stored value otherwise,
then INSERT OR REPLACE the whole row. -/
def save_user_settings (db : DB) (uid : Nat)
    (lat lon : Option Rat) (notification_time timezone : Option String) : DB :=
  let current := get_user_settings db uid
  let row : UserSettings :=
    { latitude := lat.orElse fun _ => current.latitude
      longitude := lon.orElse fun _ => current.longitude
      notification_time := notification_time.orElse fun _ => current.notification_time
      timezone := timezone.orElse fun _ => current.timezone }
  insertOrReplace db uid row

/-- Python truthiness of a nullable string column: None and the empty
string are falsy, every other string is truthy. -/
def truthyOptStr : Option String → Bool
  | none => false
  | some s => decide (s ≠ "")

/-- Python truthiness of a nullable float column: None and 0.0 are falsy,
every other number is truthy. -/
def truthyRat : Option Rat → Bool
  | none => false
  | some x => decide (x ≠ 0)

/-- One scheduler job.  The source keys jobs by the string
`"user_" ++ str(user_id)` (src/main.py lines 172 and 234); that key is in
bijection with `user_id`, so the embedding keys jobs by `user_id`
directly. -/
structure Job where
  user_id : Nat
  hour : Nat
  minute : Nat
  timezone : String
  deriving DecidableEq, Repr

/-- `scheduler.add_job(..., id=f"user_{user_id}", replace_existing=True)`:
installs the job, replacing any job with the same key.  Replacement is
modelled as remove-then-append; every claim about the job table is stated
up to membership, which this preserves. -/
def add_job (jobs : List Job) (j : Job) : List Job :=
  jobs.filter (fun k => !(k.user_id == j.user_id)) ++ [j]

/-- Python `s.split(':')` on the character list: split at every colon,
keeping empty groups. -/
def splitColon (cs : List Char) : List (List Char) :=
  match cs with
  | [] => [[]]
  | c :: rest =>
    if c = ':' then [] :: splitColon rest
    else
      match splitColon rest with
      | [] => [[c]]
      | g :: gs => (c :: g) :: gs

/-- Python `int(s)` restricted to the digit strings that can reach it here
(the routing regex and the stored times admit only decimal digits): decimal
value of a nonempty digit string, None otherwise (ValueError). -/
def digitsToNat? (cs : List Char) : Option Nat :=
  if cs.isEmpty then none
  else if cs.all Char.isDigit then
    some (cs.foldl (fun n c => 10 * n + (c.toNat - '0'.toNat)) 0)
  else none

/-- `hour, minute = map(int, time_str.split(':'))`: succeeds exactly when
the split yields two parseable groups; anything else raises ValueError,
embedded as `none`. -/
def parseTime (s : String) : Option (Nat × Nat) :=
  match (splitColon s.data).map digitsToNat? with
  | [some h, some m] => some (h, m)
  | _ => none

/-- The routing regex for time input (src/main.py line 256):
`^\d{1,2}:\d{2}$`. -/
def matchesTimeRegex (s : String) : Bool :=
  match s.data with
  | [h1, ':', m1, m2] => h1.isDigit && m1.isDigit && m2.isDigit
  | [h1, h2, ':', m1, m2] => h1.isDigit && h2.isDigit && m1.isDigit && m2.isDigit
  | _ => false

/-- Validation performed by apscheduler's `CronTrigger(hour=..., minute=...)`
constructor: an hour outside 0..23 or a minute outside 0..59 raises
ValueError at trigger-construction time (arguments here are already
nonnegative because they come from `int` on digit strings). -/
def cronFieldsValid (h m : Nat) : Bool := h ≤ 23 && m ≤ 59

/-- The distinct user-facing replies of the handlers (original texts are
Ukrainian; the constructors identify them). -/
inductive Msg where
  /-- "‼️ Невірний формат! Використовуйте HH:MM" -/
  | invalidFormat
  /-- "❌ Спочатку вкажіть локацію!" -/
  | setLocationFirst
  /-- "✅ Сповіщення встановлено на {time} вашого часу!" -/
  | notificationSet (t : String)
  /-- "‼️ Сталася помилка" -/
  | genericError
  /-- "🔍 Спочатку відправте своє місцезнаходження, щоб отримати прогноз." -/
  | shareLocationPrompt
  deriving DecidableEq, Repr

/-- Observable events of a handler run or a job firing. -/
inductive Ev where
  /-- one HTTP request made by `get_weather` -/
  | fetchWeather
  /-- one `logging.error(...)` call, tagged by the failing step -/
  | logError (tag : String)
  /-- one `model.generate_content` call -/
  | genDescription
  /-- `tts.save("weather.mp3")`: the temporary speech artifact is created -/
  | ttsSave
  /-- a delivered `bot.send_message` -/
  | sendMessage (uid : Nat) (text : String)
  /-- a delivered `bot.send_audio` -/
  | sendAudio (uid : Nat)
  /-- `os.remove("weather.mp3")`: the artifact is released -/
  | removeFile
  /-- an `update.message.reply_text` to the user -/
  | reply (uid : Nat) (m : Msg)
  deriving DecidableEq, Repr

/-- Oracle fixing the outcome of each external collaborator call during one
handler run or firing: the weather API's response (None models a request
failure), the narration model's response (None models a generation
failure), and whether each Telegram send succeeds. -/
structure Env where
  weather : Option String
  narration : Option String
  sendMessageOk : Bool
  sendAudioOk : Bool
  deriving DecidableEq, Repr

/-- "🌤️ Прогноз погоди на сьогодні: гарна погода!" — the fixed fallback
narration (src/main.py line 126). -/
def fallbackDescription : String := "generic forecast"

/-- `get_weather` (src/main.py lines 105-113): one request; on failure the
exception is caught, logged, and None is returned. -/
def get_weather (env : Env) : Option String × List Ev :=
  match env.weather with
  | some w => (some w, [Ev.fetchWeather])
  | none => (none, [Ev.fetchWeather, Ev.logError "weather"])

/-- `generate_weather_description` (src/main.py lines 115-126): one
generation call; on failure the exception is caught, logged, and the fixed
fallback text is returned. -/
def generate_weather_description (env : Env) : String × List Ev :=
  match env.narration with
  | some t => (t, [Ev.genDescription])
  | none => (fallbackDescription, [Ev.genDescription, Ev.logError "narration"])

/-- `send_daily_weather` (src/main.py lines 128-153), the delivery
pipeline.  The whole body is inside `try/except` whose handler only logs,
so a failed send produces a log event and ends the run; `os.remove` is the
last statement of the `try` block and runs only when both sends
succeeded. -/
def send_daily_weather (env : Env) (db : DB) (uid : Nat) : List Ev :=
  let s := get_user_settings db uid
  if truthyRat s.latitude && truthyRat s.longitude then
    match get_weather env with
    | (none, evs) => evs
    | (some _, evs) =>
      let d := generate_weather_description env
      let evs := evs ++ d.2 ++ [Ev.ttsSave]
      if env.sendMessageOk then
        let evs := evs ++ [Ev.sendMessage uid d.1]
        if env.sendAudioOk then evs ++ [Ev.sendAudio uid, Ev.removeFile]
        else evs ++ [Ev.logError "delivery"]
      else evs ++ [Ev.logError "delivery"]
  else []

/-- One firing of a user's recurring cron job: apscheduler invokes the
callback `send_daily_weather`; the recurring job itself stays installed
whatever the callback does (apscheduler isolates callback errors, and the
callback additionally catches every exception). -/
def fire (env : Env) (db : DB) (jobs : List Job) (uid : Nat) : List Ev × List Job :=
  (send_daily_weather env db uid, jobs)

/-- `handle_instant_forecast` (src/main.py lines 188-196): with truthy
coordinates it calls `get_weather` once (discarding the result) and then
runs the full delivery pipeline; otherwise it replies with a
share-location prompt. -/
def handle_instant_forecast (env : Env) (db : DB) (uid : Nat) : List Ev :=
  let s := get_user_settings db uid
  if truthyRat s.latitude && truthyRat s.longitude then
    (get_weather env).2 ++ send_daily_weather env db uid
  else
    [Ev.reply uid Msg.shareLocationPrompt]

/-- Result of `handle_time_input`: the table, the job set and the replies
sent. -/
structure HandlerResult where
  db : DB
  jobs : List Job
  events : List Ev
  deriving DecidableEq, Repr

/-- `handle_time_input` (src/main.py lines 219-244): parse the text (a
ValueError is caught and answered with the invalid-format reply); refuse
when the stored timezone is falsy; construct the CronTrigger (an
out-of-range field raises ValueError, caught by the same handler); install
the job with `replace_existing=True`; only then persist
`notification_time`; finally confirm. -/
def handle_time_input (db : DB) (jobs : List Job) (uid : Nat) (text : String) :
    HandlerResult :=
  match parseTime text with
  | none => ⟨db, jobs, [Ev.reply uid Msg.invalidFormat]⟩
  | some (h, m) =>
    let s := get_user_settings db uid
    match s.timezone with
    | none => ⟨db, jobs, [Ev.reply uid Msg.setLocationFirst]⟩
    | some tz =>
      if tz = "" then ⟨db, jobs, [Ev.reply uid Msg.setLocationFirst]⟩
      else if cronFieldsValid h m then
        ⟨save_user_settings db uid none none (some text) none,
         add_job jobs ⟨uid, h, m, tz⟩,
         [Ev.reply uid (Msg.notificationSet text)]⟩
      else ⟨db, jobs, [Ev.reply uid Msg.invalidFormat]⟩

/-- `restore_jobs` (src/main.py lines 161-175): enumerate the rows whose
`notification_time` is not NULL; install a job for each row whose time and
timezone are both truthy; other rows are passed over — the loop body
contains no logging call, so the event list stays empty.  A stored time
that does not parse would raise an uncaught ValueError (None). -/
def restore_jobs (db : DB) (jobs : List Job) : Option (List Job × List Ev) :=
  match db with
  | [] => some (jobs, [])
  | (uid, s) :: rest =>
    match s.notification_time with
    | none => restore_jobs rest jobs
    | some t =>
      if decide (t ≠ "") && truthyOptStr s.timezone then
        match parseTime t with
        | none => none
        | some (h, m) =>
          restore_jobs rest (add_job jobs ⟨uid, h, m, s.timezone.getD ""⟩)
      else restore_jobs rest jobs

/-- The job set induced by a table: one job per row whose time and
timezone are truthy and whose time parses. -/
def jobsOf (db : DB) : List Job :=
  db.filterMap (fun p =>
    match p.2.notification_time with
    | none => none
    | some t =>
      if decide (t ≠ "") && truthyOptStr p.2.timezone then
        match parseTime t with
        | none => none
        | some (h, m) => some ⟨p.1, h, m, p.2.timezone.getD ""⟩
      else none)

/-- Every row that `restore_jobs` would try to parse does parse (true of
every table reachable through `handle_time_input`, which stores only
strings it has already parsed). -/
def allTimesParse (db : DB) : Bool :=
  db.all (fun p =>
    match p.2.notification_time with
    | none => true
    | some t =>
      if decide (t ≠ "") && truthyOptStr p.2.timezone then (parseTime t).isSome
      else true)

/-- What the spec requires of a reconstructed job, stated against the
table: the row for the job's user has a truthy stored time parsing to the
job's hour and minute, and the job's timezone is the stored one. -/
def storedJobSpec (db : DB) (j : Job) : Prop :=
  ∃ s t, (j.user_id, s) ∈ db ∧ s.notification_time = some t ∧ t ≠ "" ∧
    parseTime t = some (j.hour, j.minute) ∧
    s.timezone = some j.timezone ∧ j.timezone ≠ ""

/-! ### Store lemmas -/

lemma find?_append_single (l : DB) (uid : Nat) (row : UserSettings)
    (h : ∀ p ∈ l, (p.1 == uid) = false) :
    (l ++ [(uid, row)]).find? (fun p => p.1 == uid) = some (uid, row) := by
  induction l with
  | nil => simp [List.find?]
  | cons a l ih =>
    have ha := h a (List.mem_cons_self a l)
    rw [List.cons_append, List.find?_cons_of_neg _ (by simp [ha])]
    exact ih fun p hp => h p (List.mem_cons_of_mem a hp)

lemma get_insertOrReplace_self (db : DB) (uid : Nat) (row : UserSettings) :
    get_user_settings (insertOrReplace db uid row) uid = row := by
  unfold get_user_settings insertOrReplace
  rw [find?_append_single]
  intro p hp
  have := List.of_mem_filter hp
  simpa using this

lemma find?_insertOrReplace_other (db : DB) (uid v : Nat) (row : UserSettings)
    (h : v ≠ uid) :
    (insertOrReplace db uid row).find? (fun p => p.1 == v) =
      db.find? (fun p => p.1 == v) := by
  unfold insertOrReplace
  induction db with
  | nil =>
    simp only [List.filter_nil, List.nil_append]
    rw [List.find?_cons_of_neg _ (by simp [Ne.symm h])]
  | cons a l ih =>
    by_cases hau : a.1 = uid
    · rw [List.filter_cons, if_neg (by simp [hau]),
        List.find?_cons_of_neg _ (by simp [hau, Ne.symm h])]
      exact ih
    · rw [List.filter_cons, if_pos (by simp [hau]), List.cons_append]
      by_cases hav : a.1 = v
      · rw [List.find?_cons_of_pos _ (by simp [hav]),
          List.find?_cons_of_pos _ (by simp [hav])]
      · rw [List.find?_cons_of_neg _ (by simp [hav]),
          List.find?_cons_of_neg _ (by simp [hav])]
        exact ih

lemma get_insertOrReplace_other (db : DB) (uid v : Nat) (row : UserSettings)
    (h : v ≠ uid) :
    get_user_settings (insertOrReplace db uid row) v = get_user_settings db v := by
  unfold get_user_settings
  rw [find?_insertOrReplace_other db uid v row h]

lemma get_save_self (db : DB) (uid : Nat) (lat lon : Option Rat)
    (nt tz : Option String) :
    get_user_settings (save_user_settings db uid lat lon nt tz) uid =
      { latitude := lat.orElse fun _ => (get_user_settings db uid).latitude
        longitude := lon.orElse fun _ => (get_user_settings db uid).longitude
        notification_time := nt.orElse fun _ => (get_user_settings db uid).notification_time
        timezone := tz.orElse fun _ => (get_user_settings db uid).timezone } :=
  get_insertOrReplace_self db uid _

lemma get_save_other (db : DB) (uid v : Nat) (lat lon : Option Rat)
    (nt tz : Option String) (h : v ≠ uid) :
    get_user_settings (save_user_settings db uid lat lon nt tz) v =
      get_user_settings db v :=
  get_insertOrReplace_other db uid v _ h

/-! ### C3: field-wise upsert -/

/-- C3: the settings upsert is field-wise, not record-wise: each supplied
(non-None) argument of `save_user_settings` overwrites the stored value
and each omitted (None) argument keeps the previously stored value; in
particular, upserting only latitude and longitude leaves the stored
notification_time and timezone unchanged. -/
theorem C3_fieldwise_upsert (db : DB) (uid : Nat) (lat lon : Option Rat)
    (nt tz : Option String) :
    get_user_settings (save_user_settings db uid lat lon nt tz) uid =
      { latitude := lat.orElse fun _ => (get_user_settings db uid).latitude
        longitude := lon.orElse fun _ => (get_user_settings db uid).longitude
        notification_time := nt.orElse fun _ => (get_user_settings db uid).notification_time
        timezone := tz.orElse fun _ => (get_user_settings db uid).timezone } ∧
    (∀ a b : Rat,
      get_user_settings (save_user_settings db uid (some a) (some b) none none) uid =
        { latitude := some a
          longitude := some b
          notification_time := (get_user_settings db uid).notification_time
          timezone := (get_user_settings db uid).timezone }) := by
  refine ⟨get_save_self db uid lat lon nt tz, fun a b => ?_⟩
  rw [get_save_self]
  simp [Option.orElse]

/-! ### C10: fields never cleared -/

/-- One call's arguments to `save_user_settings`: target user, then the
four optional fields. -/
abbrev UpsertCall := Nat × Option Rat × Option Rat × Option String × Option String

def applyUpsert (db : DB) (c : UpsertCall) : DB :=
  save_user_settings db c.1 c.2.1 c.2.2.1 c.2.2.2.1 c.2.2.2.2

def applyUpserts (db : DB) (calls : List UpsertCall) : DB :=
  calls.foldl applyUpsert db

lemma applyUpsert_isSome_mono (db : DB) (uid : Nat) (c : UpsertCall) :
    ((get_user_settings db uid).latitude.isSome = true →
      (get_user_settings (applyUpsert db c) uid).latitude.isSome = true) ∧
    ((get_user_settings db uid).longitude.isSome = true →
      (get_user_settings (applyUpsert db c) uid).longitude.isSome = true) ∧
    ((get_user_settings db uid).notification_time.isSome = true →
      (get_user_settings (applyUpsert db c) uid).notification_time.isSome = true) ∧
    ((get_user_settings db uid).timezone.isSome = true →
      (get_user_settings (applyUpsert db c) uid).timezone.isSome = true) := by
  obtain ⟨u, la, lo, nt, tz⟩ := c
  by_cases h : uid = u
  · subst h
    unfold applyUpsert
    rw [get_save_self]
    refine ⟨?_, ?_, ?_, ?_⟩
    · cases la <;> simp [Option.orElse]
    · cases lo <;> simp [Option.orElse]
    · cases nt <;> simp [Option.orElse]
    · cases tz <;> simp [Option.orElse]
  · unfold applyUpsert
    rw [get_save_other _ _ _ _ _ _ _ h]
    exact ⟨id, id, id, id⟩

/-- C10: the upsert can never clear a field.  For every starting table and
every sequence of `save_user_settings` calls, a field of a user's row that
is non-null beforehand is still non-null afterwards: a None argument means
"preserve the stored value", so once set each field stays set forever. -/
theorem C10_fields_never_cleared (db : DB) (calls : List UpsertCall) (uid : Nat) :
    ((get_user_settings db uid).latitude.isSome = true →
      (get_user_settings (applyUpserts db calls) uid).latitude.isSome = true) ∧
    ((get_user_settings db uid).longitude.isSome = true →
      (get_user_settings (applyUpserts db calls) uid).longitude.isSome = true) ∧
    ((get_user_settings db uid).notification_time.isSome = true →
      (get_user_settings (applyUpserts db calls) uid).notification_time.isSome = true) ∧
    ((get_user_settings db uid).timezone.isSome = true →
      (get_user_settings (applyUpserts db calls) uid).timezone.isSome = true) := by
  induction calls generalizing db with
  | nil => exact ⟨id, id, id, id⟩
  | cons c cs ih =>
    have h1 := applyUpsert_isSome_mono db uid c
    have h2 := ih (applyUpsert db c)
    simp only [applyUpserts, List.foldl_cons] at h2 ⊢
    exact ⟨fun h => h2.1 (h1.1 h), fun h => h2.2.1 (h1.2.1 h),
      fun h => h2.2.2.1 (h1.2.2.1 h), fun h => h2.2.2.2 (h1.2.2.2 h)⟩

def db10 : DB := [(7, ⟨none, none, some "08:00", some "Europe/Kiev"⟩)]

def calls10 : List UpsertCall := [(7, some 50, some 30, none, none)]

/-- Witness for C10 at a concrete table and call sequence: a coordinates-only
upsert leaves the stored notification_time and timezone non-null. -/
theorem C10_witness :
    (get_user_settings (applyUpserts db10 calls10) 7).notification_time.isSome = true ∧
    (get_user_settings (applyUpserts db10 calls10) 7).timezone.isSome = true :=
  ⟨(C10_fields_never_cleared db10 calls10 7).2.2.1 (by decide),
   (C10_fields_never_cleared db10 calls10 7).2.2.2 (by decide)⟩

/-! ### C2: one job per user, replacement law -/

lemma add_job_filter_self (jobs : List Job) (j : Job) :
    (add_job jobs j).filter (fun k => k.user_id == j.user_id) = [j] := by
  unfold add_job
  rw [List.filter_append, List.filter_filter]
  simp

lemma add_job_add_job (jobs : List Job) (j j' : Job) (h : j.user_id = j'.user_id) :
    add_job (add_job jobs j) j' = add_job jobs j' := by
  unfold add_job
  rw [List.filter_append, List.filter_filter]
  simp [h]

/-- C2: at most one active recurring job exists per user at any time.
Installing a job leaves exactly one job for that user; installing a second
job for the same user replaces the first — the job table afterwards equals
the one obtained by installing only the latest job, exactly one job for
that user remains, and it carries the latest firing time. -/
theorem C2_schedule_replaces (jobs : List Job) (j j' : Job)
    (huid : j.user_id = j'.user_id) :
    (add_job jobs j).filter (fun k => k.user_id == j.user_id) = [j] ∧
    (add_job (add_job jobs j) j').filter (fun k => k.user_id == j'.user_id) = [j'] ∧
    add_job (add_job jobs j) j' = add_job jobs j' := by
  refine ⟨add_job_filter_self jobs j, ?_, add_job_add_job jobs j j' huid⟩
  rw [add_job_add_job jobs j j' huid]
  exact add_job_filter_self jobs j'

/-- Witness for C2 at concrete jobs: scheduling 08:00 and then 09:30 for
user 1 leaves exactly the 09:30 job. -/
theorem C2_witness :
    (add_job (add_job [] ⟨1, 8, 0, "Europe/Kiev"⟩) ⟨1, 9, 30, "Europe/Kiev"⟩).filter
      (fun k => k.user_id == 1) = [⟨1, 9, 30, "Europe/Kiev"⟩] ∧
    add_job (add_job [] ⟨1, 8, 0, "Europe/Kiev"⟩) ⟨1, 9, 30, "Europe/Kiev"⟩ =
      add_job [] ⟨1, 9, 30, "Europe/Kiev"⟩ :=
  ⟨(C2_schedule_replaces [] ⟨1, 8, 0, "Europe/Kiev"⟩ ⟨1, 9, 30, "Europe/Kiev"⟩ rfl).2.1,
   (C2_schedule_replaces [] ⟨1, 8, 0, "Europe/Kiev"⟩ ⟨1, 9, 30, "Europe/Kiev"⟩ rfl).2.2⟩

/-! ### C4: out-of-range time input is rejected -/

/-- C4: a time input whose hour or minute is out of range (for example
"25:99", which matches the routing regex) is rejected with a validation
error surfaced to the user, no job is installed and the stored profile is
unchanged: the CronTrigger constructor raises ValueError, which the
handler answers with the invalid-format reply before the job install or
the write can happen; when no timezone is stored yet the handler refuses
even earlier with its own corrective reply.  The value is never coerced
into a job. -/
theorem C4_out_of_range_rejected (db : DB) (jobs : List Job) (uid : Nat)
    (text : String) (h m : Nat)
    (_hre : matchesTimeRegex text = true)
    (hp : parseTime text = some (h, m))
    (hr : 23 < h ∨ 59 < m) :
    (handle_time_input db jobs uid text).db = db ∧
    (handle_time_input db jobs uid text).jobs = jobs ∧
    ((handle_time_input db jobs uid text).events = [Ev.reply uid Msg.invalidFormat] ∨
     (handle_time_input db jobs uid text).events = [Ev.reply uid Msg.setLocationFirst]) := by
  have hcron : cronFieldsValid h m = false := by
    unfold cronFieldsValid
    rcases hr with h1 | h1 <;> simp <;> omega
  cases htz : (get_user_settings db uid).timezone with
  | none => simp [handle_time_input, hp, htz]
  | some tz =>
    by_cases he : tz = ""
    · simp [handle_time_input, hp, htz, he]
    · simp [handle_time_input, hp, htz, he, hcron]

def db4 : DB := [(3, ⟨some 50, some 30, none, some "Europe/Kiev"⟩)]

/-- Witness for C4: the input "25:99" matches the routing regex but is
rejected for user 3, whose timezone is stored; table and job set are
untouched. -/
theorem C4_witness :
    matchesTimeRegex "25:99" = true ∧
    (handle_time_input db4 [] 3 "25:99").db = db4 ∧
    (handle_time_input db4 [] 3 "25:99").jobs = [] ∧
    ((handle_time_input db4 [] 3 "25:99").events = [Ev.reply 3 Msg.invalidFormat] ∨
     (handle_time_input db4 [] 3 "25:99").events = [Ev.reply 3 Msg.setLocationFirst]) :=
  ⟨by decide,
   (C4_out_of_range_rejected db4 [] 3 "25:99" 25 99 (by decide) (by decide)
     (by decide)).1,
   (C4_out_of_range_rejected db4 [] 3 "25:99" 25 99 (by decide) (by decide)
     (by decide)).2.1,
   (C4_out_of_range_rejected db4 [] 3 "25:99" 25 99 (by decide) (by decide)
     (by decide)).2.2⟩

/-! ### C5: no scheduling without a timezone -/

/-- C5: for a user whose stored timezone is null, submitting a (parseable)
notification time is refused: the handler sends the corrective
set-location-first message, schedules no job and stores no
notification_time. -/
theorem C5_time_refused_without_timezone (db : DB) (jobs : List Job)
    (uid : Nat) (text : String) (h m : Nat)
    (hp : parseTime text = some (h, m))
    (htz : (get_user_settings db uid).timezone = none) :
    handle_time_input db jobs uid text =
      ⟨db, jobs, [Ev.reply uid Msg.setLocationFirst]⟩ := by
  simp [handle_time_input, hp, htz]

def db5 : DB := [(4, ⟨some 50, some 30, none, none⟩)]

/-- Witness for C5: user 4 has coordinates but no timezone; sending
"08:00" is refused and nothing is scheduled or stored. -/
theorem C5_witness :
    handle_time_input db5 [] 4 "08:00" =
      ⟨db5, [], [Ev.reply 4 Msg.setLocationFirst]⟩ :=
  C5_time_refused_without_timezone db5 [] 4 "08:00" 8 0 (by decide) (by decide)

/-! ### C6: the coordinate gate of the delivery pipeline -/

/-- C6 counterexample: the claim says the pipeline proceeds whenever both
coordinates are present, but a stored latitude of 0 is falsy in Python, so
the pipeline aborts even though both coordinates are present in the
profile. -/
theorem C6_counterexample :
    (get_user_settings [(1, ⟨some 0, some 30, none, none⟩)] 1).latitude.isSome = true ∧
    (get_user_settings [(1, ⟨some 0, some 30, none, none⟩)] 1).longitude.isSome = true ∧
    send_daily_weather ⟨some "sunny", some "text", true, true⟩
      [(1, ⟨some 0, some 30, none, none⟩)] 1 = [] := by decide

/-- C6 (amended): the delivery pipeline aborts silently as a no-op exactly
when at least one coordinate is absent or zero (Python falsiness), and
proceeds to fetch weather whenever both coordinates are present and
nonzero. -/
theorem C6_coordinate_gate (env : Env) (db : DB) (uid : Nat) :
    (send_daily_weather env db uid = [] ↔
      ¬(truthyRat (get_user_settings db uid).latitude = true ∧
        truthyRat (get_user_settings db uid).longitude = true)) ∧
    (truthyRat (get_user_settings db uid).latitude = true →
      truthyRat (get_user_settings db uid).longitude = true →
      Ev.fetchWeather ∈ send_daily_weather env db uid) := by
  obtain ⟨w, n, sm, sa⟩ := env
  cases hb : (truthyRat (get_user_settings db uid).latitude &&
      truthyRat (get_user_settings db uid).longitude) with
  | false =>
    constructor
    · constructor
      · intro _ hcon
        rw [hcon.1, hcon.2] at hb
        simp at hb
      · intro _
        simp [send_daily_weather, hb]
    · intro hla hlo
      rw [hla, hlo] at hb
      simp at hb
  | true =>
    rw [Bool.and_eq_true] at hb
    constructor
    · constructor
      · intro he
        cases w <;> cases n <;> cases sm <;> cases sa <;>
          simp [send_daily_weather, get_weather, generate_weather_description,
            hb.1, hb.2] at he
      · intro hc
        exact absurd ⟨hb.1, hb.2⟩ hc
    · intro _ _
      cases w <;> cases n <;> cases sm <;> cases sa <;>
        simp [send_daily_weather, get_weather, generate_weather_description,
          hb.1, hb.2]

/-- Witness for C6 (amended) at a concrete profile with nonzero
coordinates: the pipeline fetches weather. -/
theorem C6_witness :
    Ev.fetchWeather ∈ send_daily_weather ⟨some "sunny", some "text", true, true⟩
      [(2, ⟨some 50, some 30, none, none⟩)] 2 :=
  (C6_coordinate_gate ⟨some "sunny", some "text", true, true⟩
    [(2, ⟨some 50, some 30, none, none⟩)] 2).2 (by decide) (by decide)

/-! ### C7: release of the speech artifact -/

/-- C7 counterexample: the claim says the temporary speech artifact is
released on every failure path after creation, but when the audio send
fails the exception handler only logs — `os.remove` is never reached and
the artifact stays on disk. -/
theorem C7_counterexample :
    Ev.ttsSave ∈ send_daily_weather ⟨some "sunny", some "text", true, false⟩
      [(1, ⟨some 50, some 30, none, none⟩)] 1 ∧
    Ev.removeFile ∉ send_daily_weather ⟨some "sunny", some "text", true, false⟩
      [(1, ⟨some 50, some 30, none, none⟩)] 1 := by decide

/-- C7 (amended): in every delivery in which the speech artifact is
created, the artifact is removed exactly when both the text and the audio
delivery succeed; when either delivery fails after creation the exception
is caught and logged, and the artifact is not removed. -/
theorem C7_cleanup_only_on_success (env : Env) (db : DB) (uid : Nat)
    (hc : Ev.ttsSave ∈ send_daily_weather env db uid) :
    (Ev.removeFile ∈ send_daily_weather env db uid ↔
      env.sendMessageOk = true ∧ env.sendAudioOk = true) ∧
    (¬(env.sendMessageOk = true ∧ env.sendAudioOk = true) →
      Ev.logError "delivery" ∈ send_daily_weather env db uid) := by
  obtain ⟨w, n, sm, sa⟩ := env
  cases hb : (truthyRat (get_user_settings db uid).latitude &&
      truthyRat (get_user_settings db uid).longitude) with
  | false =>
    simp [send_daily_weather, hb] at hc
  | true =>
    rw [Bool.and_eq_true] at hb
    cases w with
    | none =>
      simp [send_daily_weather, get_weather, hb.1, hb.2] at hc
    | some w' =>
      cases n <;> cases sm <;> cases sa <;>
        simp [send_daily_weather, get_weather, generate_weather_description,
          hb.1, hb.2]

/-- Witness for C7 (amended) at a fully successful delivery: the artifact
is created and removed. -/
theorem C7_witness :
    Ev.removeFile ∈ send_daily_weather ⟨some "sunny", some "text", true, true⟩
      [(3, ⟨some 50, some 30, none, none⟩)] 3 :=
  ((C7_cleanup_only_on_success ⟨some "sunny", some "text", true, true⟩
    [(3, ⟨some 50, some 30, none, none⟩)] 3 (by decide)).1).mpr ⟨rfl, rfl⟩

/-! ### C8: scheduled firing versus on-demand forecast -/

/-- C8 counterexample: for a user with no stored coordinates the two
triggers diverge — a scheduled firing does nothing while the on-demand
request sends a share-location prompt. -/
theorem C8_counterexample :
    send_daily_weather ⟨some "sunny", some "text", true, true⟩ [] 5 = [] ∧
    handle_instant_forecast ⟨some "sunny", some "text", true, true⟩ [] 5 =
      [Ev.reply 5 Msg.shareLocationPrompt] := by decide

/-- C8 (amended): when both coordinates are present and nonzero, the
on-demand request performs one extra weather fetch (result discarded, with
its own failure log) and then runs exactly the scheduled firing's delivery
pipeline, so the delivered messages agree; when a coordinate is missing or
zero, a scheduled firing is a silent no-op while the on-demand request
replies with a share-location prompt. -/
theorem C8_trigger_relation (env : Env) (db : DB) (uid : Nat) :
    ((truthyRat (get_user_settings db uid).latitude &&
      truthyRat (get_user_settings db uid).longitude) = true →
      handle_instant_forecast env db uid =
        (get_weather env).2 ++ send_daily_weather env db uid) ∧
    ((truthyRat (get_user_settings db uid).latitude &&
      truthyRat (get_user_settings db uid).longitude) = false →
      handle_instant_forecast env db uid = [Ev.reply uid Msg.shareLocationPrompt] ∧
      send_daily_weather env db uid = []) := by
  constructor
  · intro hb
    simp [handle_instant_forecast, hb]
  · intro hb
    constructor
    · simp [handle_instant_forecast, hb]
    · simp [send_daily_weather, hb]

def db8 : DB := [(6, ⟨some 50, some 30, none, none⟩)]

/-- Witness for C8 (amended) at a concrete profile with coordinates and a
failing weather provider: the on-demand trace is the extra fetch (and its
log) followed by the scheduled firing's trace. -/
theorem C8_witness :
    handle_instant_forecast ⟨none, some "text", true, true⟩ db8 6 =
      (get_weather ⟨none, some "text", true, true⟩).2 ++
        send_daily_weather ⟨none, some "text", true, true⟩ db8 6 :=
  (C8_trigger_relation ⟨none, some "text", true, true⟩ db8 6).1 (by decide)

/-! ### C9: provider failure during a firing -/

/-- C9: when the weather provider fails during a firing of a user's job,
the firing's whole trace is one fetch (no retry within the call) followed
by one error log: no message is sent to the user, and the recurring job
stays installed for the next day — the failure neither unschedules the job
nor escapes the callback. -/
theorem C9_provider_failure (env : Env) (db : DB) (jobs : List Job) (uid : Nat)
    (hw : env.weather = none)
    (hla : truthyRat (get_user_settings db uid).latitude = true)
    (hlo : truthyRat (get_user_settings db uid).longitude = true) :
    (fire env db jobs uid).1 = [Ev.fetchWeather, Ev.logError "weather"] ∧
    (fire env db jobs uid).2 = jobs := by
  constructor
  · simp [fire, send_daily_weather, get_weather, hw, hla, hlo]
  · rfl

def db9 : DB := [(8, ⟨some 50, some 30, some "08:00", some "Europe/Kiev"⟩)]

/-- Witness for C9 at a concrete profile and a failing provider. -/
theorem C9_witness :
    (fire ⟨none, some "text", true, true⟩ db9
        [⟨8, 8, 0, "Europe/Kiev"⟩] 8).1 = [Ev.fetchWeather, Ev.logError "weather"] ∧
    (fire ⟨none, some "text", true, true⟩ db9
        [⟨8, 8, 0, "Europe/Kiev"⟩] 8).2 = [⟨8, 8, 0, "Europe/Kiev"⟩] :=
  C9_provider_failure ⟨none, some "text", true, true⟩ db9
    [⟨8, 8, 0, "Europe/Kiev"⟩] 8 rfl (by decide) (by decide)

/-! ### C1: reconciliation at process start -/

lemma add_job_fresh (jobs : List Job) (j : Job)
    (h : ∀ k ∈ jobs, k.user_id ≠ j.user_id) :
    add_job jobs j = jobs ++ [j] := by
  unfold add_job
  congr 1
  apply List.filter_eq_self.mpr
  intro k hk
  simp [h k hk]

lemma restore_jobs_run (db : DB) (jobs : List Job)
    (hnd : (db.map Prod.fst).Nodup)
    (hfresh : ∀ k ∈ jobs, ∀ p ∈ db, k.user_id ≠ p.1)
    (hparse : allTimesParse db = true) :
    restore_jobs db jobs = some (jobs ++ jobsOf db, []) := by
  induction db generalizing jobs with
  | nil => simp [restore_jobs, jobsOf]
  | cons p rest ih =>
    obtain ⟨uid, s⟩ := p
    rw [allTimesParse, List.all_cons, Bool.and_eq_true] at hparse
    obtain ⟨hp1, hp2⟩ := hparse
    rw [List.map_cons, List.nodup_cons] at hnd
    obtain ⟨hnd1, hnd2⟩ := hnd
    have hfresh' : ∀ k ∈ jobs, ∀ p ∈ rest, k.user_id ≠ p.1 :=
      fun k hk p hp => hfresh k hk p (List.mem_cons_of_mem _ hp)
    cases hnt : s.notification_time with
    | none =>
      simp only [restore_jobs, hnt, jobsOf, List.filterMap_cons]
      exact ih jobs hnd2 hfresh' hp2
    | some t =>
      cases hcond : (decide (t ≠ "") && truthyOptStr s.timezone) with
      | false =>
        simp only [restore_jobs, hnt, hcond, Bool.false_eq_true, if_false,
          jobsOf, List.filterMap_cons]
        exact ih jobs hnd2 hfresh' hp2
      | true =>
        simp only [hnt] at hp1
        rw [if_pos hcond] at hp1
        obtain ⟨⟨h, m⟩, hpt⟩ := Option.isSome_iff_exists.mp hp1
        have hj : add_job jobs ⟨uid, h, m, s.timezone.getD ""⟩ =
            jobs ++ [⟨uid, h, m, s.timezone.getD ""⟩] :=
          add_job_fresh jobs _ fun k hk =>
            hfresh k hk (uid, s) (List.mem_cons_self _ _)
        have hrest : ∀ k ∈ jobs ++ [(⟨uid, h, m, s.timezone.getD ""⟩ : Job)],
            ∀ p ∈ rest, k.user_id ≠ p.1 := by
          intro k hk p hp
          rcases List.mem_append.mp hk with hk | hk
          · exact hfresh' k hk p hp
          · rw [List.mem_singleton.mp hk]
            intro hc
            apply hnd1
            show uid ∈ List.map Prod.fst rest
            rw [show uid = p.1 from hc]
            exact List.mem_map_of_mem Prod.fst hp
        simp only [restore_jobs, hnt]
        rw [if_pos hcond]
        simp only [hpt]
        rw [hj]
        have hrec := ih (jobs ++ [(⟨uid, h, m, s.timezone.getD ""⟩ : Job)]) hnd2 hrest hp2
        rw [hrec]
        simp only [jobsOf, List.filterMap_cons]
        have hcond' : ¬t = "" ∧ truthyOptStr s.timezone = true := by simpa using hcond
        simp [hnt, hpt, hcond'.1, hcond'.2]

lemma mem_jobsOf (db : DB) (j : Job) : j ∈ jobsOf db ↔ storedJobSpec db j := by
  unfold jobsOf storedJobSpec
  rw [List.mem_filterMap]
  constructor
  · rintro ⟨⟨uid, s⟩, hp, hf⟩
    cases hnt : s.notification_time with
    | none => simp [hnt] at hf
    | some t =>
      by_cases hce : t = ""
      · simp [hnt, hce] at hf
      · cases htz : s.timezone with
        | none => simp [hnt, htz, hce, truthyOptStr] at hf
        | some z =>
          by_cases hze : z = ""
          · simp [hnt, htz, hce, hze, truthyOptStr] at hf
          · cases hpt : parseTime t with
            | none => simp [hnt, htz, hce, hze, truthyOptStr, hpt] at hf
            | some hm =>
              obtain ⟨h, m⟩ := hm
              simp only [hnt, htz, hce, hze, truthyOptStr, hpt, decide_not,
                Option.getD_some] at hf
              rw [if_pos (by simp [hze, hce])] at hf
              rw [Option.some_inj] at hf
              subst hf
              exact ⟨s, t, hp, hnt, hce, hpt, htz, hze⟩
  · rintro ⟨s, t, hmem, hnt, hne, hpt, htz, hze⟩
    refine ⟨(j.user_id, s), hmem, ?_⟩
    simp only [hnt, htz, hpt, truthyOptStr, Option.getD_some]
    rw [if_pos (by simp [hne, hze])]

/-- C1 counterexample to the claim as stated.  First, a profile with
`notification_time` set but `timezone` null is skipped by `restore_jobs`
with an empty event trace: no "inconsistent" log entry is produced, the
skip is silent.  Second, a profile whose `notification_time` and
`timezone` are both non-null gets no job when the timezone is the empty
string, because the loop tests Python truthiness, not nullness. -/
theorem C1_counterexample :
    restore_jobs [(1, ⟨none, none, some "08:00", none⟩)] [] = some ([], []) ∧
    ((⟨none, none, some "08:00", some ""⟩ : UserSettings).notification_time.isSome = true ∧
     (⟨none, none, some "08:00", some ""⟩ : UserSettings).timezone.isSome = true ∧
     restore_jobs [(2, ⟨none, none, some "08:00", some ""⟩)] [] = some ([], [])) := by
  decide

/-- C1 (amended): reconciliation rebuilds the scheduler's job set exactly
from the store.  For any table with distinct user ids whose relevant
stored times parse, restoration succeeds with an empty event trace (so the
profiles with `notification_time` set but `timezone` null or empty are
skipped silently, not logged), and a job is installed precisely for every
profile whose `notification_time` and `timezone` are both non-null and
non-empty, carrying the stored hour, minute and timezone bound to that
user id; consequently any pre-restart job set that agrees with the store's
induced job set is reproduced exactly. -/
theorem C1_reconciliation_rebuild (db : DB)
    (hnd : (db.map Prod.fst).Nodup)
    (hparse : allTimesParse db = true) :
    ∃ jobs, restore_jobs db [] = some (jobs, []) ∧
      (∀ j : Job, j ∈ jobs ↔ storedJobSpec db j) ∧
      (∀ pre : List Job, (∀ j : Job, j ∈ pre ↔ storedJobSpec db j) →
        (∀ j : Job, j ∈ jobs ↔ j ∈ pre)) := by
  refine ⟨jobsOf db, ?_, fun j => mem_jobsOf db j, ?_⟩
  · simpa using restore_jobs_run db [] hnd (by simp) hparse
  · intro pre hpre j
    exact (mem_jobsOf db j).trans (hpre j).symm

def db1 : DB := [(1, ⟨some 50, some 30, some "08:00", some "Europe/Kiev"⟩),
                 (2, ⟨none, none, some "07:30", none⟩)]

/-- Witness for C1 (amended) at a concrete table: user 1 has a complete
profile, user 2 has a time but no timezone. -/
theorem C1_witness :
    ∃ jobs, restore_jobs db1 [] = some (jobs, []) ∧
      (∀ j : Job, j ∈ jobs ↔ storedJobSpec db1 j) ∧
      (∀ pre : List Job, (∀ j : Job, j ∈ pre ↔ storedJobSpec db1 j) →
        (∀ j : Job, j ∈ jobs ↔ j ∈ pre)) :=
  C1_reconciliation_rebuild db1 (by decide) (by decide)

end WeatherBot
